import Mathlib

/-!
Shallow embedding of the `breaker` package (go-circuit-breaker).

Modelling conventions:
* `time.Time` and `time.Duration` are modelled as `Int` (nanoseconds);
  the zero `time.Time` is `0`, `a.Before(b)` is `a < b`, `t.Add(d)` is `t + d`.
* Go `int` fields (counters, generation, maxRequests) are modelled as `Int`.
* The mutex is erased: every method becomes a pure function from the breaker
  record (and the wall-clock instant observed inside the locked section) to
  the updated record.  The several `time.Now()` reads inside one locked
  section are modelled as a single instant `t`.
* A nil-able Go func field (`Settings.ReadyToTrip`) is an `Option`.
-/

namespace Breaker

/-- `type State int`; `StateHalfOpen = 0`, `StateOpen = 1`, `StateClosed = 2`.
`open` is a Lean keyword, hence the constructor name `opened`. -/
inductive State where
  | halfOpen : State
  | opened : State
  | closed : State
deriving DecidableEq, Repr

/-- The two sentinel admission-rejection errors of the package. -/
inductive BreakerError where
  | errTooManyRequests : BreakerError
  | errOpenState : BreakerError
deriving DecidableEq, Repr

structure Counts where
  requests : Int
  totalSuccess : Int
  totalFail : Int
  consecutiveSuccess : Int
  consecutiveFail : Int
deriving DecidableEq, Repr

def Counts.onRequest (c : Counts) : Counts :=
  { c with requests := c.requests + 1 }

def Counts.onSuccess (c : Counts) : Counts :=
  { c with consecutiveSuccess := c.consecutiveSuccess + 1,
           totalSuccess := c.totalSuccess + 1,
           consecutiveFail := 0 }

def Counts.onFail (c : Counts) : Counts :=
  { c with consecutiveFail := c.consecutiveFail + 1,
           totalFail := c.totalFail + 1,
           consecutiveSuccess := 0 }

def Counts.clear (_c : Counts) : Counts :=
  { requests := 0, totalSuccess := 0, totalFail := 0,
    consecutiveSuccess := 0, consecutiveFail := 0 }

/-- The all-zero `Counts`, i.e. the Go zero value. -/
def Counts.zero : Counts :=
  { requests := 0, totalSuccess := 0, totalFail := 0,
    consecutiveSuccess := 0, consecutiveFail := 0 }

structure Settings where
  timeout : Int
  maxRequests : Int
  readyToTrip : Option (Counts → Bool)

structure CircuitBreaker where
  timeout : Int
  maxRequests : Int
  readyToTrip : Counts → Bool
  state : State
  generation : Int
  counts : Counts
  expiry : Int

/-- One second of `time.Duration`, in nanoseconds. -/
def second : Int := 1000000000

/-- `const defaultTimeOut = 60 * time.Second` -/
def defaultTimeOut : Int := 60 * second

/-- `const defaultMaxRequests = 5` -/
def defaultMaxRequests : Int := 5

/-- `func defaultReadyToTrip(c Counts) bool { return c.ConsecutiveFail >= 5 }` -/
def defaultReadyToTrip (c : Counts) : Bool :=
  c.consecutiveFail ≥ 5

/-- `func (cb *CircuitBreaker) refresh(t time.Time)` -/
def CircuitBreaker.refresh (cb : CircuitBreaker) (t : Int) : CircuitBreaker :=
  let cb := { cb with generation := cb.generation + 1, counts := cb.counts.clear }
  match cb.state with
  | State.closed => { cb with expiry := t + cb.timeout }
  | _ => { cb with expiry := 0 }

/-- `func NewCircuitBreaker(setings Settings) *CircuitBreaker`.
`new(CircuitBreaker)` zero-initialises every field; in particular the zero
value of `State` is `StateHalfOpen` (iota 0) when `refresh` runs, and only
afterwards does the code assign `cb.state = StateClosed` and
`cb.generation = 0`.  Note the source tests `setings.Timeout` (not
`setings.MaxRequests`) when deciding whether to default `maxRequests`. -/
def newCircuitBreaker (setings : Settings) (now : Int) : CircuitBreaker :=
  let cb : CircuitBreaker :=
    { timeout := 0, maxRequests := 0, readyToTrip := fun _ => false,
      state := State.halfOpen, generation := 0, counts := Counts.zero, expiry := 0 }
  let cb := if setings.timeout ≤ 0 then { cb with timeout := defaultTimeOut }
            else { cb with timeout := setings.timeout }
  let cb := if setings.timeout ≤ 0 then { cb with maxRequests := defaultMaxRequests }
            else { cb with maxRequests := setings.maxRequests }
  let cb := match setings.readyToTrip with
            | none => { cb with readyToTrip := defaultReadyToTrip }
            | some f => { cb with readyToTrip := f }
  let cb := cb.refresh now
  let cb := { cb with state := State.closed }
  { cb with generation := 0 }

/-- `func (cb *CircuitBreaker) newGeneration(t time.Time)` -/
def CircuitBreaker.newGeneration (cb : CircuitBreaker) (t : Int) : CircuitBreaker :=
  let cb := { cb with counts := cb.counts.clear, generation := cb.generation + 1 }
  if cb.state = State.opened then { cb with expiry := t + cb.timeout }
  else { cb with expiry := 0 }

/-- `func (cb *CircuitBreaker) setState(s State, t time.Time)` -/
def CircuitBreaker.setState (cb : CircuitBreaker) (s : State) (t : Int) : CircuitBreaker :=
  if s = cb.state then cb
  else ({ cb with state := s }).newGeneration t

/-- `func (cb *CircuitBreaker) currentState(t time.Time) (State, int)`.
The lazy transition fires only from `StateClosed`; `expiry.Before(t)` is a
strict comparison. -/
def CircuitBreaker.currentState (cb : CircuitBreaker) (t : Int) :
    State × Int × CircuitBreaker :=
  let cb := if cb.state = State.closed ∧ cb.expiry < t
            then cb.setState State.halfOpen t else cb
  (cb.state, cb.generation, cb)

/-- `func (cb *CircuitBreaker) beforeRequest() (int, error)`.
Returns the generation tag and `none` for a nil error. -/
def CircuitBreaker.beforeRequest (cb : CircuitBreaker) (t : Int) :
    (Int × Option BreakerError) × CircuitBreaker :=
  let cb := { cb with counts := cb.counts.onRequest }
  let (currState, generation, cb) := cb.currentState t
  if currState = State.opened then
    ((generation, some BreakerError.errOpenState), cb)
  else if currState = State.halfOpen ∧ cb.counts.requests > cb.maxRequests then
    ((generation, some BreakerError.errTooManyRequests), cb)
  else
    ((generation, none), cb)

/-- `func (cb *CircuitBreaker) onSuccess(currState State, t time.Time)` -/
def CircuitBreaker.onSuccess (cb : CircuitBreaker) (currState : State) (t : Int) :
    CircuitBreaker :=
  match currState with
  | State.closed =>
      let cb := { cb with counts := cb.counts.onSuccess }
      if cb.readyToTrip cb.counts then cb.setState State.opened t else cb
  | State.halfOpen =>
      let cb := { cb with counts := cb.counts.onSuccess }
      if cb.counts.consecutiveSuccess ≥ cb.maxRequests then
        cb.setState State.closed t
      else cb
  | State.opened => cb

/-- `func (cb *CircuitBreaker) onFail(currState State, t time.Time)` -/
def CircuitBreaker.onFail (cb : CircuitBreaker) (currState : State) (t : Int) :
    CircuitBreaker :=
  match currState with
  | State.closed => { cb with counts := cb.counts.onFail }
  | State.halfOpen =>
      let cb := { cb with counts := cb.counts.onFail }
      cb.setState State.opened t
  | State.opened => cb

/-- `func (cb *CircuitBreaker) afterRequest(before int, isSuccess bool)` -/
def CircuitBreaker.afterRequest (cb : CircuitBreaker) (before : Int)
    (isSuccess : Bool) (t : Int) : CircuitBreaker :=
  let (currState, generation, cb) := cb.currentState t
  if generation ≠ before then cb
  else if isSuccess then cb.onSuccess currState t
  else cb.onFail currState t

/-- An error returned by `Execute`: either one of the breaker's sentinel
rejection errors, or the wrapped operation's own error passed through. -/
inductive ExecError (ε : Type) where
  | breaker : BreakerError → ExecError ε
  | op : ε → ExecError ε
deriving DecidableEq, Repr

/-- `func (cb *CircuitBreaker) Execute(req func() (interface{}, error))
(interface{}, error)`.  The wrapped operation is modelled by its result pair
`(res, opErr)` with `opErr = none` for a nil error.  `t1` is the instant of
the `beforeRequest` locked section, `t2` that of `afterRequest`.  The source
passes `err != nil` as the `isSuccess` argument of `afterRequest`, which is
reproduced here as `opErr.isSome`.  The panic/recover path is not modelled
(no claim depends on abnormal termination). -/
def CircuitBreaker.execute {α ε : Type} (cb : CircuitBreaker)
    (req : α × Option ε) (t1 t2 : Int) :
    (Option α × Option (ExecError ε)) × CircuitBreaker :=
  let ((generation, err), cb) := cb.beforeRequest t1
  match err with
  | some e => ((none, some (ExecError.breaker e)), cb)
  | none =>
      let (res, opErr) := req
      let cb := cb.afterRequest generation opErr.isSome t2
      ((some res, opErr.map ExecError.op), cb)

end Breaker

namespace Breaker

/-! ### Concrete breaker values used in closed theorems and witnesses -/

/-- A breaker currently in `HalfOpen` (fresh generation, cleared counts),
with default-like configuration. -/
def cbHalf : CircuitBreaker :=
  { timeout := 60 * second, maxRequests := 5, readyToTrip := defaultReadyToTrip,
    state := State.halfOpen, generation := 0, counts := Counts.zero, expiry := 0 }

/-- A breaker that entered `Open` at time 100 with timeout 60,
so its expiry is 160. -/
def cbOpen : CircuitBreaker :=
  { timeout := 60, maxRequests := 5, readyToTrip := defaultReadyToTrip,
    state := State.opened, generation := 3, counts := Counts.zero, expiry := 160 }

/-- A breaker currently in `Closed` whose expiry lies far in the future. -/
def cbClosed : CircuitBreaker :=
  { timeout := 60 * second, maxRequests := 5, readyToTrip := defaultReadyToTrip,
    state := State.closed, generation := 2, counts := Counts.zero, expiry := 1000000 }

/-- `n` successive admission checks (`beforeRequest`), all at instant `t`. -/
def beforeN (cb : CircuitBreaker) (t : Int) : Nat → CircuitBreaker
  | 0 => cb
  | n + 1 => ((beforeN cb t n).beforeRequest t).2

/-! ### Helper lemmas -/

/-- `afterRequest` written with explicit projections of `currentState`. -/
lemma afterRequest_eq (cb : CircuitBreaker) (before : Int) (isSuccess : Bool)
    (t : Int) :
    cb.afterRequest before isSuccess t =
      (if (cb.currentState t).2.1 ≠ before then (cb.currentState t).2.2
       else if isSuccess then ((cb.currentState t).2.2).onSuccess (cb.currentState t).1 t
       else ((cb.currentState t).2.2).onFail (cb.currentState t).1 t) := rfl

/-- In `HalfOpen`, `beforeRequest` only increments the request counter and
decides admission by comparing it with `maxRequests`; no lazy transition
fires and the generation tag is unchanged. -/
lemma beforeRequest_halfOpen (cb : CircuitBreaker) (t : Int)
    (h : cb.state = State.halfOpen) :
    cb.beforeRequest t =
      ((cb.generation,
        if cb.counts.requests + 1 > cb.maxRequests
        then some BreakerError.errTooManyRequests else none),
       { cb with counts := cb.counts.onRequest }) := by
  simp only [CircuitBreaker.beforeRequest, CircuitBreaker.currentState,
    Counts.onRequest, h]
  simp
  split <;> rfl

/-- Iterating admission checks from `HalfOpen` keeps the breaker in
`HalfOpen`, adds one request per check, and fixes the other fields. -/
lemma beforeN_halfOpen (cb : CircuitBreaker) (t : Int)
    (h : cb.state = State.halfOpen) (n : Nat) :
    (beforeN cb t n).state = State.halfOpen ∧
    (beforeN cb t n).counts.requests = cb.counts.requests + n ∧
    (beforeN cb t n).maxRequests = cb.maxRequests ∧
    (beforeN cb t n).generation = cb.generation := by
  induction n with
  | zero => simp [beforeN, h]
  | succ n ih =>
      obtain ⟨h1, h2, h3, h4⟩ := ih
      rw [beforeN, beforeRequest_halfOpen _ _ h1]
      refine ⟨h1, ?_, h3, h4⟩
      simp [Counts.onRequest, h2]
      ring

end Breaker

namespace Breaker

/-! ### Claim theorems -/

/-- C1.  The claim says a nil operation error is recorded as a success and a
non-nil error as a failure.  The code passes `err != nil` as the `isSuccess`
argument of `afterRequest`, so the classification is inverted: a successful
operation in `HalfOpen` is recorded as a failure (tripping the breaker to
`Open`), and a failing operation is recorded as a success
(`totalSuccess = 1`, `totalFail = 0`).  The error itself is still passed
through unmodified (first and third conjuncts). -/
theorem C1_outcome_classification_inverted :
    (cbHalf.execute ((42 : Int), (none : Option Unit)) 10 10).1 =
      (some 42, none) ∧
    (cbHalf.execute ((42 : Int), (none : Option Unit)) 10 10).2.state =
      State.opened ∧
    (cbHalf.execute ((0 : Int), (some () : Option Unit)) 10 10).1 =
      (some 0, some (ExecError.op ())) ∧
    (cbHalf.execute ((0 : Int), (some () : Option Unit)) 10 10).2.counts.totalSuccess = 1 ∧
    (cbHalf.execute ((0 : Int), (some () : Option Unit)) 10 10).2.counts.totalFail = 0 :=
  ⟨rfl, rfl, rfl, rfl, rfl⟩

/-- C2.  The claim says the first admission check at or after `T + D`
observes `HalfOpen`.  `currentState` performs its lazy transition only from
`StateClosed`, so a breaker in `Open` (entered at `T = 100` with `D = 60`,
expiry `160`) is still rejected with the "circuit open" error at `t = 1000`,
long after expiry, and remains in `Open` with the same expiry: the
`Open`-to-`HalfOpen` transition never fires. -/
theorem C2_open_never_recovers :
    cbOpen.state = State.opened ∧ cbOpen.expiry = 160 ∧
    (cbOpen.beforeRequest 1000).1.2 = some BreakerError.errOpenState ∧
    (cbOpen.beforeRequest 1000).2.state = State.opened ∧
    (cbOpen.beforeRequest 1000).2.expiry = 160 :=
  ⟨rfl, rfl, rfl, rfl, rfl⟩

/-- C3.  The claim says `maxRequests` defaults to 5 exactly when no positive
count is given.  The source tests `setings.Timeout` instead of
`setings.MaxRequests`: with a positive timeout and `MaxRequests = 0` the
effective value stays 0 (not the default 5), and with `Timeout = 0` an
explicitly supplied `MaxRequests = 7` is ignored in favour of the default. -/
theorem C3_maxRequests_default_tests_wrong_field :
    (newCircuitBreaker { timeout := second, maxRequests := 0, readyToTrip := none } 0).maxRequests = 0 ∧
    (newCircuitBreaker { timeout := 0, maxRequests := 7, readyToTrip := none } 0).maxRequests = defaultMaxRequests :=
  ⟨rfl, rfl⟩

/-- C4.  The claim says the `Closed` observation window is established at
construction and on every return to `Closed` by setting expiry to
now + timeout.  At construction `refresh` runs while `cb.state` is still the
zero value `StateHalfOpen` (the assignment `cb.state = StateClosed` comes
after), so its `StateClosed` branch is dead and the expiry stays the zero
timestamp; and `newGeneration` on entering `Closed` takes the non-`Open`
branch, clearing expiry to zero as well. -/
theorem C4_closed_window_never_established :
    (newCircuitBreaker { timeout := second, maxRequests := 3, readyToTrip := none } 1000).expiry = 0 ∧
    (cbHalf.setState State.closed 500).expiry = 0 :=
  ⟨rfl, rfl⟩

/-- C5.  When `afterRequest` is invoked with a generation tag different from
the current generation (as recomputed by `currentState`, including any lazy
transition it performs), the outcome is discarded: the resulting breaker is
exactly the post-`currentState` breaker, so neither `onSuccess` nor `onFail`
runs and the current generation's counts are untouched by the stale call. -/
theorem C5_stale_generation_discarded (cb : CircuitBreaker) (before : Int)
    (isSuccess : Bool) (t : Int)
    (h : (cb.currentState t).2.1 ≠ before) :
    cb.afterRequest before isSuccess t = (cb.currentState t).2.2 := by
  rw [afterRequest_eq, if_pos h]

theorem C5_witness :
    (cbHalf.currentState 5).2.1 ≠ 99 ∧
    cbHalf.afterRequest 99 true 5 = (cbHalf.currentState 5).2.2 :=
  ⟨by decide, C5_stale_generation_discarded cbHalf 99 true 5 (by decide)⟩

/-- C7.  `setState` with the current state is a complete no-op (the breaker
record, hence state, counts, generation and expiry, is unchanged); with any
different state the generation increases by exactly one and all five
`Counts` fields are reset to zero. -/
theorem C7_setState_idempotent_or_rolls_generation (cb : CircuitBreaker)
    (s : State) (t : Int) :
    (s = cb.state → cb.setState s t = cb) ∧
    (s ≠ cb.state →
      (cb.setState s t).generation = cb.generation + 1 ∧
      (cb.setState s t).counts = Counts.zero) := by
  constructor
  · intro h
    simp [CircuitBreaker.setState, h]
  · intro h
    simp only [CircuitBreaker.setState, if_neg h, CircuitBreaker.newGeneration,
      Counts.clear]
    constructor
    · split <;> rfl
    · split <;> rfl

theorem C7_witness :
    cbHalf.setState State.halfOpen 5 = cbHalf ∧
    (State.closed ≠ cbHalf.state ∧
     (cbHalf.setState State.closed 5).generation = cbHalf.generation + 1 ∧
     (cbHalf.setState State.closed 5).counts = Counts.zero) :=
  ⟨(C7_setState_idempotent_or_rolls_generation cbHalf State.halfOpen 5).1 rfl,
   by decide,
   (C7_setState_idempotent_or_rolls_generation cbHalf State.closed 5).2 (by decide)⟩

/-- C10.  If `afterRequest` runs while the breaker is in `Open` with a
matching generation tag, it is a complete no-op: `currentState` performs no
lazy transition from `Open`, and neither `onSuccess` nor `onFail` has an
`Open` branch, so the breaker record is unchanged for both outcomes. -/
theorem C10_afterRequest_noop_in_open (cb : CircuitBreaker) (before : Int)
    (isSuccess : Bool) (t : Int)
    (h : cb.state = State.opened) (hg : before = cb.generation) :
    cb.afterRequest before isSuccess t = cb := by
  rw [afterRequest_eq]
  simp only [CircuitBreaker.currentState, h]
  simp [hg, h, CircuitBreaker.onSuccess, CircuitBreaker.onFail]

theorem C10_witness :
    cbOpen.state = State.opened ∧ (3 : Int) = cbOpen.generation ∧
    cbOpen.afterRequest 3 true 7 = cbOpen :=
  ⟨rfl, rfl, C10_afterRequest_noop_in_open cbOpen 3 true 7 rfl rfl⟩

end Breaker

namespace Breaker

/-- Closed form of `newCircuitBreaker`: the constructor always produces a
`Closed` breaker with generation 0, cleared counts and zero expiry (the
`refresh` call runs while the state is still the zero value `halfOpen`). -/
lemma newCircuitBreaker_eq (s : Settings) (now : Int) :
    newCircuitBreaker s now =
      { timeout := if s.timeout ≤ 0 then defaultTimeOut else s.timeout,
        maxRequests := if s.timeout ≤ 0 then defaultMaxRequests else s.maxRequests,
        readyToTrip := match s.readyToTrip with
                       | none => defaultReadyToTrip
                       | some f => f,
        state := State.closed, generation := 0, counts := Counts.zero,
        expiry := 0 } := by
  rcases s with ⟨sT, sM, sR⟩
  by_cases hT : sT ≤ 0 <;> cases sR <;>
    simp [newCircuitBreaker, CircuitBreaker.refresh, Counts.clear, Counts.zero, hT]

/-- C6.  In `HalfOpen` with a fresh request counter, the `(n+1)`-st
successive admission check (all while the breaker stays in `HalfOpen`) is
admitted exactly when `n + 1 ≤ maxRequests` and is otherwise rejected with
the "too many requests" error; the checks themselves never leave
`HalfOpen`, so exactly `maxRequests` calls are admitted before the
rejections start. -/
theorem C6_halfOpen_admits_exactly_maxRequests (cb : CircuitBreaker) (t : Int)
    (h : cb.state = State.halfOpen) (h0 : cb.counts.requests = 0) (n : Nat) :
    ((beforeN cb t n).beforeRequest t).1.2 =
      (if (n : Int) + 1 ≤ cb.maxRequests then none
       else some BreakerError.errTooManyRequests) ∧
    ((beforeN cb t n).beforeRequest t).2.state = State.halfOpen := by
  obtain ⟨h1, h2, h3, h4⟩ := beforeN_halfOpen cb t h n
  rw [beforeRequest_halfOpen _ _ h1]
  constructor
  · show (if (beforeN cb t n).counts.requests + 1 > (beforeN cb t n).maxRequests
          then some BreakerError.errTooManyRequests else none) = _
    rw [h2, h0, h3]
    by_cases hc : (n : Int) + 1 ≤ cb.maxRequests
    · rw [if_neg (by omega), if_pos hc]
    · rw [if_pos (by omega), if_neg hc]
  · exact h1

theorem C6_witness :
    cbHalf.state = State.halfOpen ∧ cbHalf.counts.requests = 0 ∧
    ((beforeN cbHalf 10 5).beforeRequest 10).1.2 =
      some BreakerError.errTooManyRequests ∧
    ((beforeN cbHalf 10 4).beforeRequest 10).1.2 = none :=
  ⟨rfl, rfl,
   by rw [(C6_halfOpen_admits_exactly_maxRequests cbHalf 10 rfl rfl 5).1]; decide,
   by rw [(C6_halfOpen_admits_exactly_maxRequests cbHalf 10 rfl rfl 4).1]; decide⟩

/-- C8.  Recording a failure while `Closed` only updates the counts through
`Counts.onFail` (state, generation, expiry and the stored predicate are all
unchanged, and the result does not depend on the trip predicate at all),
whereas recording a success while `Closed` evaluates the trip predicate on
the updated counts: if it returns `true` the breaker enters `Open` with a
fresh generation and cleared counts, and if it returns `false` only the
counts change. -/
theorem C8_trip_evaluated_only_on_success_in_closed (cb : CircuitBreaker)
    (t : Int) (h : cb.state = State.closed) :
    cb.onFail State.closed t = { cb with counts := cb.counts.onFail } ∧
    (cb.readyToTrip cb.counts.onSuccess = true →
      (cb.onSuccess State.closed t).state = State.opened ∧
      (cb.onSuccess State.closed t).generation = cb.generation + 1 ∧
      (cb.onSuccess State.closed t).counts = Counts.zero) ∧
    (cb.readyToTrip cb.counts.onSuccess = false →
      cb.onSuccess State.closed t = { cb with counts := cb.counts.onSuccess }) := by
  refine ⟨rfl, ?_, ?_⟩
  · intro hp
    simp [CircuitBreaker.onSuccess, hp, CircuitBreaker.setState, h,
      CircuitBreaker.newGeneration, Counts.clear, Counts.zero]
  · intro hp
    simp [CircuitBreaker.onSuccess, hp]

theorem C8_witness :
    cbClosed.state = State.closed ∧
    (cbClosed.onFail State.closed 5 = { cbClosed with counts := cbClosed.counts.onFail } ∧
     (cbClosed.readyToTrip cbClosed.counts.onSuccess = true →
       (cbClosed.onSuccess State.closed 5).state = State.opened ∧
       (cbClosed.onSuccess State.closed 5).generation = cbClosed.generation + 1 ∧
       (cbClosed.onSuccess State.closed 5).counts = Counts.zero) ∧
     (cbClosed.readyToTrip cbClosed.counts.onSuccess = false →
       cbClosed.onSuccess State.closed 5 = { cbClosed with counts := cbClosed.counts.onSuccess })) :=
  ⟨rfl, C8_trip_evaluated_only_on_success_in_closed cbClosed 5 rfl⟩

/-- C9.  A freshly constructed breaker is in `Closed` with generation 0,
cleared counts and zero expiry; hence at any instant `t` after the zero
timestamp the first admission check fires the lazy `Closed`-expiry rule:
the breaker is observed in `HalfOpen` with generation 1 and cleared counts,
and (whenever the effective `maxRequests` is non-negative) that first call
is admitted with generation tag 1. -/
theorem C9_fresh_breaker_first_call (s : Settings) (t0 t : Int) (ht : 0 < t)
    (hmax : 0 ≤ (newCircuitBreaker s t0).maxRequests) :
    (newCircuitBreaker s t0).state = State.closed ∧
    (newCircuitBreaker s t0).generation = 0 ∧
    (newCircuitBreaker s t0).counts = Counts.zero ∧
    (newCircuitBreaker s t0).expiry = 0 ∧
    ((newCircuitBreaker s t0).beforeRequest t).1 = (1, none) ∧
    ((newCircuitBreaker s t0).beforeRequest t).2.state = State.halfOpen ∧
    ((newCircuitBreaker s t0).beforeRequest t).2.generation = 1 ∧
    ((newCircuitBreaker s t0).beforeRequest t).2.counts = Counts.zero := by
  rw [newCircuitBreaker_eq] at hmax ⊢
  refine ⟨rfl, rfl, rfl, rfl, ?_, ?_, ?_, ?_⟩ <;>
    simp [CircuitBreaker.beforeRequest, CircuitBreaker.currentState,
      CircuitBreaker.setState, CircuitBreaker.newGeneration, Counts.onRequest,
      Counts.clear, Counts.zero, ht, not_lt.mpr hmax]

theorem C9_witness :
    (0 : Int) < 5 ∧
    0 ≤ (newCircuitBreaker ⟨0, 0, none⟩ 1000).maxRequests ∧
    ((newCircuitBreaker ⟨0, 0, none⟩ 1000).beforeRequest 5).1 = (1, none) ∧
    ((newCircuitBreaker ⟨0, 0, none⟩ 1000).beforeRequest 5).2.state = State.halfOpen :=
  ⟨by decide, by decide,
   (C9_fresh_breaker_first_call ⟨0, 0, none⟩ 1000 5 (by decide) (by decide)).2.2.2.2.1,
   (C9_fresh_breaker_first_call ⟨0, 0, none⟩ 1000 5 (by decide) (by decide)).2.2.2.2.2.1⟩

end Breaker
